import Mathlib

/-!
# AmbientLight: host/device parameter-commit protocol

A shallow embedding of `ospray/lights/AmbientLight.cpp`: the constructor
`AmbientLight::AmbientLight()` and the method `AmbientLight::commit()`.

C++ object state becomes explicit state passing.  A call that may throw returns
an `Except` outcome *together with* the state reached when the exception left
the function, because in C++ the assignments executed before a `throw` are
retained.

The parameter getters (`getParam3f`, `getParam1f`, `getIE`, from the base
class) and the two backend entry points (`ispc::AmbientLight_create`,
`ispc::AmbientLight_set`) are declared in headers that are not part of the
source tree at hand; they are modelled from the specification and marked as
such.
-/

/-! ## Values -/

/-- A pointer value; `0` is the null pointer. -/
abbrev Ptr := Nat

/-- A single-precision number, identified by its IEEE-754 binary32 bit pattern.
The program only stores and copies such numbers, it never computes with them. -/
abbrev float := Fin 4294967296

/-- The literal `0.f`. -/
def f0 : float := 0

/-- The literal `1.f` (bit pattern `0x3F800000`). -/
def f1 : float := 1065353216

/-- The literal `2.f` (bit pattern `0x40000000`). -/
def f2 : float := 1073741824

/-- Three-component single-precision vector. -/
structure vec3f where
  x : float
  y : float
  z : float
  deriving DecidableEq, Repr

/-- The three kinds of failure named by the specification. -/
inductive Error where
  | UnknownVariant
  | InvalidParameter
  | DeviceInitFailure
  deriving DecidableEq, Repr

deriving instance DecidableEq for Except

/-! ## Parameter dictionary -/

/-- Modelled from the spec: the typed value stored under a parameter name
("mapping from name (string) to typed value"); the parameter storage type of
the base class is not part of the source tree. -/
inductive ParamValue where
  | scalar (v : float)
  | vec3 (v : vec3f)
  | str (s : String)
  deriving DecidableEq, Repr

/-- Modelled from the spec: the parameter dictionary, a finite mapping from
names to typed values. -/
abbrev ParamList := List (String × ParamValue)

/-- Modelled from the spec: lookup of a name in the dictionary; an absent key
is not an error. -/
def findParam : ParamList → String → Option ParamValue
  | [], _ => none
  | (k, v) :: rest, name => if k = name then some v else findParam rest name

/-- Modelled from the spec: `getParam3f(name, valIfNotFound)` of the base class
(not part of the source tree).  Lookup-with-default: an absent key yields the
supplied default; a stored value that is not a 3-vector cannot be coerced and
is rejected with `InvalidParameter`. -/
def getParam3f (params : ParamList) (name : String) (valIfNotFound : vec3f) :
    Except Error vec3f :=
  match findParam params name with
  | none => .ok valIfNotFound
  | some (.vec3 v) => .ok v
  | some _ => .error .InvalidParameter

/-- Modelled from the spec: `getParam1f(name, valIfNotFound)` of the base class
(not part of the source tree).  Lookup-with-default: an absent key yields the
supplied default; a stored value that is not a scalar cannot be coerced and is
rejected with `InvalidParameter`. -/
def getParam1f (params : ParamList) (name : String) (valIfNotFound : float) :
    Except Error float :=
  match findParam params name with
  | none => .ok valIfNotFound
  | some (.scalar v) => .ok v
  | some _ => .error .InvalidParameter

/-- Whether a stored value has the type `getParam3f` asks for. -/
def ParamValue.isVec3 : ParamValue → Bool
  | .vec3 _ => true
  | _ => false

/-- Whether a stored value has the type `getParam1f` asks for. -/
def ParamValue.isScalar : ParamValue → Bool
  | .scalar _ => true
  | _ => false

/-! ## Backend (device side) -/

namespace ispc

/-- Modelled from the spec: contents of a device-equivalent of an ambient
light: the owning host object and the data consumed by the rendering path. -/
structure AmbientLight where
  cppEquivalent : Ptr
  color : vec3f
  intensity : float
  deriving DecidableEq, Repr

/-- A call made by the host into the backend, with its arguments (and, for a
creation, the handle it returned). -/
inductive Call where
  | create (cppEquivalent : Ptr) (result : Ptr)
  | set (self : Ptr) (color : vec3f) (intensity : float)
  deriving DecidableEq, Repr

/-- Modelled from the spec: the backend state: the live device-equivalents by
handle, the number of allocations the backend can still satisfy, and the calls
received so far (most recent first). -/
structure Device where
  heap : List (Ptr × AmbientLight)
  capacity : Nat
  trace : List Call
  deriving DecidableEq, Repr

/-- The device-equivalent stored under a handle, if any. -/
def find : List (Ptr × AmbientLight) → Ptr → Option AmbientLight
  | [], _ => none
  | (k, v) :: rest, h => if k = h then some v else find rest h

/-- A handle that is non-null and different from every handle in use. -/
def freshPtr : List (Ptr × AmbientLight) → Ptr
  | [] => 1
  | (k, _) :: rest => max (k + 1) (freshPtr rest)

/-- Overwrite the data of the device-equivalent stored under handle `self`. -/
def store : List (Ptr × AmbientLight) → Ptr → vec3f → float → List (Ptr × AmbientLight)
  | [], _, _, _ => []
  | (k, v) :: rest, self, c, i =>
    if k = self then (k, { v with color := c, intensity := i }) :: store rest self c i
    else (k, v) :: store rest self c i

/-- Modelled from the spec: `ispc::AmbientLight_create(cppEquivalent)`, the
variant's device-equivalent factory (ISPC code, not part of the source tree).
It allocates one device-equivalent, initialised with the variant's defaults
("variants should initialize device defaults at construction"), and returns
its handle; it fails with `DeviceInitFailure` when the backend cannot
allocate. -/
def AmbientLight_create (cppEquivalent : Ptr) (dev : Device) : Except Error (Ptr × Device) :=
  match dev.capacity with
  | 0 => .error .DeviceInitFailure
  | n + 1 =>
    let h := freshPtr dev.heap
    .ok (h, { heap := (h, { cppEquivalent := cppEquivalent
                            color := ⟨f1, f1, f1⟩
                            intensity := f1 }) :: dev.heap
              capacity := n
              trace := Call.create cppEquivalent h :: dev.trace })

/-- Modelled from the spec: `ispc::AmbientLight_set(self, color, intensity)`,
the variant's device-equivalent setter (ISPC code, not part of the source
tree); infallible, it overwrites the data held under the handle. -/
def AmbientLight_set (self : Ptr) (color : vec3f) (intensity : float) (dev : Device) : Device :=
  { dev with heap := store dev.heap self color intensity
             trace := Call.set self color intensity :: dev.trace }

/-- Number of device-equivalent creations recorded in a trace. -/
def creations : List Call → Nat
  | [] => 0
  | Call.create _ _ :: rest => creations rest + 1
  | Call.set _ _ _ :: rest => creations rest

/-- The arguments of the most recent `AmbientLight_set` call on a handle. -/
def lastSet : List Call → Ptr → Option (vec3f × float)
  | [], _ => none
  | Call.create _ _ :: rest, h => lastSet rest h
  | Call.set self c i :: rest, h => if self = h then some (c, i) else lastSet rest h

end ispc

/-! ## Host side -/

namespace ospray

/-- The host object.  `paramList` and `ispcEquivalent` are the members
inherited from the base class; `color` and `intensity` are the typed fields of
the variant. -/
structure AmbientLight where
  paramList : ParamList
  ispcEquivalent : Ptr
  color : vec3f
  intensity : float
  deriving DecidableEq, Repr

namespace AmbientLight

/-- Modelled from the spec: `getIE()` of the base class (not part of the source
tree): "returns the current device-equivalent reference". -/
def getIE (self : AmbientLight) : Ptr := self.ispcEquivalent

/-- Modelled from the spec: the scene graph supplies the parameter dictionary
of an object between commits (the parameter setters of the base class are not
part of the source tree). -/
def setParams (self : AmbientLight) (params : ParamList) : AmbientLight :=
  { self with paramList := params }

/-- `AmbientLight::AmbientLight()`, for an object placed at address `this`
(lines 22 to 27).  The base class starts with no parameters and a null handle;
the member initialisers set `color(1.f, 1.f, 1.f)` and `intensity(1.f)`; the
body stores the handle returned by `ispc::AmbientLight_create(this)`. -/
def new (this : Ptr) (dev : ispc.Device) : Except Error (AmbientLight × ispc.Device) :=
  let self : AmbientLight :=
    { paramList := [], ispcEquivalent := 0, color := ⟨f1, f1, f1⟩, intensity := f1 }
  match ispc.AmbientLight_create this dev with
  | .error e => .error e
  | .ok (h, dev1) => .ok ({ self with ispcEquivalent := h }, dev1)

/-- `AmbientLight::commit()` (lines 30 to 35).  Each statement runs in source
order; when a getter throws, the exception leaves `commit` with the
assignments executed so far retained and the setter not called. -/
def commit (self : AmbientLight) (dev : ispc.Device) :
    Except Error Unit × AmbientLight × ispc.Device :=
  match getParam3f self.paramList "color" ⟨f1, f1, f1⟩ with
  | .error e => (.error e, self, dev)
  | .ok c =>
    let self1 := { self with color := c }
    match getParam1f self1.paramList "intensity" f1 with
    | .error e => (.error e, self1, dev)
    | .ok i =>
      let self2 := { self1 with intensity := i }
      (.ok (), self2, ispc.AmbientLight_set self2.getIE self2.color self2.intensity dev)

/-- A sequence of commits, each preceded by the scene graph supplying a
dictionary; outcomes are collected in call order. -/
def commits : List ParamList → AmbientLight → ispc.Device →
    List (Except Error Unit) × AmbientLight × ispc.Device
  | [], self, dev => ([], self, dev)
  | p :: ps, self, dev =>
    let r := commit (self.setParams p) dev
    let rs := commits ps r.2.1 r.2.2
    (r.1 :: rs.1, rs.2.1, rs.2.2)

end AmbientLight

/-! ## Several host objects -/

/-- The host objects by address, together with the backend they share. -/
structure World where
  objects : List (Ptr × AmbientLight)
  device : ispc.Device
  deriving DecidableEq, Repr

namespace World

/-- The host object at an address, if any. -/
def find : List (Ptr × AmbientLight) → Ptr → Option AmbientLight
  | [], _ => none
  | (k, v) :: rest, a => if k = a then some v else find rest a

/-- Write back the host object at an address. -/
def store : List (Ptr × AmbientLight) → Ptr → AmbientLight → List (Ptr × AmbientLight)
  | [], _, _ => []
  | (k, v) :: rest, a, l =>
    if k = a then (k, l) :: store rest a l else (k, v) :: store rest a l

/-- The method call `this->commit()` on the object at address `this`; `none`
when there is no object at that address. -/
def commit (this : Ptr) (w : World) : Option (Except Error Unit × World) :=
  match find w.objects this with
  | none => none
  | some self =>
    let r := self.commit w.device
    some (r.1, { objects := store w.objects this r.2.1, device := r.2.2 })

end World

end ospray

open ospray

/-! ## Concrete states used to exercise the theorems -/

/-- A backend with no device-equivalents and room for two. -/
def emptyDevice : ispc.Device := ⟨[], 2, []⟩

/-- The host object constructed at address `100` on `emptyDevice`. -/
def lightA : AmbientLight := ⟨[], 1, ⟨f1, f1, f1⟩, f1⟩

/-- The backend after constructing `lightA`. -/
def deviceA : ispc.Device := ⟨[(1, ⟨100, ⟨f1, f1, f1⟩, f1⟩)], 1, [.create 100 1]⟩

/-- The dictionary of the scenario: `color = (0,1,0)`, `intensity = 2.0`. -/
def greenParams : ParamList :=
  [("color", .vec3 ⟨f0, f1, f0⟩), ("intensity", .scalar f2)]

/-- A second host object, constructed at address `200` after `lightA`. -/
def lightB : AmbientLight := ⟨[], 2, ⟨f1, f1, f1⟩, f1⟩

/-- Two host objects with their two device-equivalents; the first one carries
the scenario dictionary, not yet committed. -/
def worldAB : World :=
  { objects := [(100, lightA.setParams greenParams), (200, lightB)]
    device := ⟨[(2, ⟨200, ⟨f1, f1, f1⟩, f1⟩), (1, ⟨100, ⟨f1, f1, f1⟩, f1⟩)], 0,
      [.create 200 2, .create 100 1]⟩ }

/-- A dictionary with a well-typed `color` and a 3-vector where `intensity`
needs a scalar. -/
def badIntensityParams : ParamList :=
  [("color", .vec3 ⟨f0, f1, f0⟩), ("intensity", .vec3 ⟨f1, f1, f1⟩)]

/-- A dictionary with a scalar where `color` needs a 3-vector. -/
def badColorParams : ParamList := [("color", .scalar f2)]

/-- The dictionary `badColorParams` with an unrecognised key added. -/
def badColorExtraParams : ParamList := [("exposure", .str "auto"), ("color", .scalar f2)]

/-! ## Lemmas about the backend store -/

namespace ispc

theorem find_store (heap : List (Ptr × AmbientLight)) (self h : Ptr) (c : vec3f) (i : float) :
    find (store heap self c i) h =
      if h = self then (find heap h).map (fun v => { v with color := c, intensity := i })
      else find heap h := by
  induction heap with
  | nil => simp [store, find]
  | cons e rest ih =>
    obtain ⟨k, v⟩ := e
    by_cases hk : k = self
    · by_cases hh : k = h
      · subst hk; subst hh; simp [store, find]
      · have hh2 : ¬ h = self := fun e => hh (by rw [hk, e])
        rw [if_neg hh2] at ih
        subst hk
        simp only [store, if_true, find, if_neg hh, if_neg hh2]
        exact ih
    · by_cases hh : k = h
      · have hh2 : ¬ h = self := fun e => hk (by rw [hh, e])
        simp [store, find, hk, hh, hh2]
      · simp only [store, hk, if_false, find, hh]
        exact ih

theorem store_store (heap : List (Ptr × AmbientLight)) (self : Ptr) (c : vec3f) (i : float) :
    store (store heap self c i) self c i = store heap self c i := by
  induction heap with
  | nil => rfl
  | cons e rest ih =>
    obtain ⟨k, v⟩ := e
    by_cases hk : k = self
    · simp [store, hk, ih]
    · simp [store, hk, ih]

theorem length_store (heap : List (Ptr × AmbientLight)) (self : Ptr) (c : vec3f) (i : float) :
    (store heap self c i).length = heap.length := by
  induction heap with
  | nil => rfl
  | cons e rest ih =>
    obtain ⟨k, v⟩ := e
    by_cases hk : k = self <;> simp [store, hk, ih]

theorem lt_freshPtr (heap : List (Ptr × AmbientLight)) (h : Ptr) (v : AmbientLight)
    (hf : find heap h = some v) : h < freshPtr heap := by
  induction heap with
  | nil => simp [find] at hf
  | cons e rest ih =>
    obtain ⟨k, w⟩ := e
    by_cases hk : k = h
    · subst hk
      exact Nat.lt_of_lt_of_le (Nat.lt_succ_self k) (Nat.le_max_left _ _)
    · simp only [find, hk, if_false] at hf
      exact Nat.lt_of_lt_of_le (ih hf) (Nat.le_max_right _ _)

theorem freshPtr_pos (heap : List (Ptr × AmbientLight)) : 0 < freshPtr heap := by
  cases heap with
  | nil => exact Nat.one_pos
  | cons e rest =>
    obtain ⟨k, w⟩ := e
    exact Nat.lt_of_lt_of_le (Nat.succ_pos k) (Nat.le_max_left _ _)

theorem find_freshPtr (heap : List (Ptr × AmbientLight)) : find heap (freshPtr heap) = none := by
  cases hf : find heap (freshPtr heap) with
  | none => rfl
  | some v => exact absurd (lt_freshPtr heap _ v hf) (Nat.lt_irrefl _)

end ispc

/-! ## Lemmas about `commit` -/

namespace ospray.AmbientLight

theorem commit_ok (self : AmbientLight) (dev : ispc.Device) (c : vec3f) (i : float)
    (hc : getParam3f self.paramList "color" ⟨f1, f1, f1⟩ = .ok c)
    (hi : getParam1f self.paramList "intensity" f1 = .ok i) :
    commit self dev =
      (.ok (), { self with color := c, intensity := i },
        ispc.AmbientLight_set self.getIE c i dev) := by
  unfold commit
  rw [hc]
  simp only [hi]
  rfl

theorem commit_color_error (self : AmbientLight) (dev : ispc.Device) (e : Error)
    (hc : getParam3f self.paramList "color" ⟨f1, f1, f1⟩ = .error e) :
    commit self dev = (.error e, self, dev) := by
  unfold commit
  rw [hc]

theorem commit_intensity_error (self : AmbientLight) (dev : ispc.Device) (c : vec3f) (e : Error)
    (hc : getParam3f self.paramList "color" ⟨f1, f1, f1⟩ = .ok c)
    (hi : getParam1f self.paramList "intensity" f1 = .error e) :
    commit self dev = (.error e, { self with color := c }, dev) := by
  unfold commit
  rw [hc]
  simp only [hi]

theorem commit_paramList (self : AmbientLight) (dev : ispc.Device) :
    (commit self dev).2.1.paramList = self.paramList := by
  cases hc : getParam3f self.paramList "color" ⟨f1, f1, f1⟩ with
  | error e => rw [commit_color_error self dev e hc]
  | ok c =>
    cases hi : getParam1f self.paramList "intensity" f1 with
    | error e => rw [commit_intensity_error self dev c e hc hi]
    | ok i => rw [commit_ok self dev c i hc hi]

theorem commit_getIE (self : AmbientLight) (dev : ispc.Device) :
    (commit self dev).2.1.getIE = self.getIE := by
  cases hc : getParam3f self.paramList "color" ⟨f1, f1, f1⟩ with
  | error e => rw [commit_color_error self dev e hc]
  | ok c =>
    cases hi : getParam1f self.paramList "intensity" f1 with
    | error e => rw [commit_intensity_error self dev c e hc hi]; rfl
    | ok i => rw [commit_ok self dev c i hc hi]; rfl

end ospray.AmbientLight

theorem new_ok (this : Ptr) (dev dev1 : ispc.Device) (l : AmbientLight)
    (hnew : AmbientLight.new this dev = .ok (l, dev1)) :
    l = ⟨[], ispc.freshPtr dev.heap, ⟨f1, f1, f1⟩, f1⟩ ∧
    dev1.heap = (ispc.freshPtr dev.heap, ⟨this, ⟨f1, f1, f1⟩, f1⟩) :: dev.heap ∧
    dev1.trace = ispc.Call.create this (ispc.freshPtr dev.heap) :: dev.trace ∧
    dev.capacity = dev1.capacity + 1 := by
  unfold AmbientLight.new ispc.AmbientLight_create at hnew
  cases hcap : dev.capacity with
  | zero => simp [hcap] at hnew
  | succ n =>
    simp only [hcap] at hnew
    injection hnew with h
    injection h with h1 h2
    subst h1; subst h2
    exact ⟨rfl, rfl, rfl, rfl⟩

theorem commit_ok_inv (self : AmbientLight) (dev : ispc.Device)
    (h : (self.commit dev).1 = .ok ()) :
    ∃ c i, getParam3f self.paramList "color" ⟨f1, f1, f1⟩ = .ok c ∧
      getParam1f self.paramList "intensity" f1 = .ok i := by
  cases hc : getParam3f self.paramList "color" ⟨f1, f1, f1⟩ with
  | error e =>
    rw [AmbientLight.commit_color_error self dev e hc] at h
    cases h
  | ok c =>
    cases hi : getParam1f self.paramList "intensity" f1 with
    | error e =>
      rw [AmbientLight.commit_intensity_error self dev c e hc hi] at h
      cases h
    | ok i => exact ⟨c, i, rfl, rfl⟩

/-- What `commit` does to the backend: either nothing, or one `AmbientLight_set`
call on the handle of the object. -/
theorem commit_device (self : AmbientLight) (dev : ispc.Device) :
    (self.commit dev).2.2 = dev ∨
    ∃ c i, (self.commit dev).2.2 = ispc.AmbientLight_set self.getIE c i dev := by
  cases hc : getParam3f self.paramList "color" ⟨f1, f1, f1⟩ with
  | error e => rw [AmbientLight.commit_color_error self dev e hc]; exact Or.inl rfl
  | ok c =>
    cases hi : getParam1f self.paramList "intensity" f1 with
    | error e => rw [AmbientLight.commit_intensity_error self dev c e hc hi]; exact Or.inl rfl
    | ok i => rw [AmbientLight.commit_ok self dev c i hc hi]; exact Or.inr ⟨c, i, rfl⟩

theorem commit_creations (self : AmbientLight) (dev : ispc.Device) :
    ispc.creations (self.commit dev).2.2.trace = ispc.creations dev.trace ∧
    (self.commit dev).2.2.heap.length = dev.heap.length := by
  rcases commit_device self dev with h | ⟨c, i, h⟩
  · rw [h]; exact ⟨rfl, rfl⟩
  · rw [h]; exact ⟨rfl, ispc.length_store _ _ _ _⟩

theorem commit_owner (self : AmbientLight) (dev : ispc.Device) (h : Ptr) :
    (ispc.find (self.commit dev).2.2.heap h).map (fun v => v.cppEquivalent)
      = (ispc.find dev.heap h).map (fun v => v.cppEquivalent) := by
  rcases commit_device self dev with hd | ⟨c, i, hd⟩
  · rw [hd]
  · rw [hd]
    simp only [ispc.AmbientLight_set, ispc.find_store]
    by_cases hh : h = self.getIE
    · rw [if_pos hh]
      cases ispc.find dev.heap h <;> rfl
    · rw [if_neg hh]

theorem commit_frame (self : AmbientLight) (dev : ispc.Device) (h : Ptr)
    (hh : h ≠ self.getIE) :
    ispc.find (self.commit dev).2.2.heap h = ispc.find dev.heap h := by
  rcases commit_device self dev with hd | ⟨c, i, hd⟩
  · rw [hd]
  · rw [hd]
    simp only [ispc.AmbientLight_set, ispc.find_store]
    rw [if_neg hh]

theorem commits_invariant (ps : List ParamList) (self : AmbientLight) (dev : ispc.Device) :
    (AmbientLight.commits ps self dev).2.1.getIE = self.getIE ∧
    ispc.creations (AmbientLight.commits ps self dev).2.2.trace = ispc.creations dev.trace ∧
    (AmbientLight.commits ps self dev).2.2.heap.length = dev.heap.length ∧
    ∀ h, (ispc.find (AmbientLight.commits ps self dev).2.2.heap h).map (fun v => v.cppEquivalent)
      = (ispc.find dev.heap h).map (fun v => v.cppEquivalent) := by
  induction ps generalizing self dev with
  | nil => exact ⟨rfl, rfl, rfl, fun _ => rfl⟩
  | cons p ps ih =>
    simp only [AmbientLight.commits]
    obtain ⟨h1, h2, h3, h4⟩ := ih ((self.setParams p).commit dev).2.1
      ((self.setParams p).commit dev).2.2
    obtain ⟨k2, k3⟩ := commit_creations (self.setParams p) dev
    refine ⟨?_, h2.trans k2, h3.trans k3, ?_⟩
    · rw [h1, AmbientLight.commit_getIE]
      rfl
    · intro h
      rw [h4 h, commit_owner]

/-! ## The claims -/

/-- C1: for a freshly constructed AmbientLight, `commit()` against an empty
parameter dictionary succeeds, leaves the host field `color` equal to (1,1,1)
and `intensity` equal to 1.0, and the call `AmbientLight_set` it makes receives
the light's handle with exactly (1,1,1) and 1.0, which the device-equivalent
then holds. -/
theorem commit_empty_yields_defaults (this : Ptr) (dev dev1 : ispc.Device) (l : AmbientLight)
    (hnew : AmbientLight.new this dev = .ok (l, dev1)) :
    ∃ l2 dev2, AmbientLight.commit (l.setParams []) dev1 = (.ok (), l2, dev2) ∧
      l2.color = ⟨f1, f1, f1⟩ ∧ l2.intensity = f1 ∧
      dev2.trace = ispc.Call.set l.getIE ⟨f1, f1, f1⟩ f1 :: dev1.trace ∧
      ispc.find dev2.heap l.getIE = some ⟨this, ⟨f1, f1, f1⟩, f1⟩ := by
  obtain ⟨hl, hheap, _, _⟩ := new_ok this dev dev1 l hnew
  refine ⟨_, _, AmbientLight.commit_ok (l.setParams []) dev1 ⟨f1, f1, f1⟩ f1 rfl rfl, rfl, rfl, rfl, ?_⟩
  subst hl
  simp [ispc.AmbientLight_set, AmbientLight.setParams, AmbientLight.getIE, hheap, ispc.store,
    ispc.find]

/-- Witness for C1: the construction at address 100 on the empty backend
succeeds, and the theorem applies to its result. -/
theorem commit_empty_yields_defaults_witness :
    AmbientLight.new 100 emptyDevice = .ok (lightA, deviceA) ∧
    ∃ l2 dev2, AmbientLight.commit (lightA.setParams []) deviceA = (.ok (), l2, dev2) ∧
      l2.color = ⟨f1, f1, f1⟩ ∧ l2.intensity = f1 ∧
      dev2.trace = ispc.Call.set lightA.getIE ⟨f1, f1, f1⟩ f1 :: deviceA.trace ∧
      ispc.find dev2.heap lightA.getIE = some ⟨100, ⟨f1, f1, f1⟩, f1⟩ :=
  ⟨by decide, commit_empty_yields_defaults 100 emptyDevice deviceA lightA (by decide)⟩

theorem commit_well_typed (self : AmbientLight) (dev : ispc.Device)
    (hc : findParam self.paramList "color" = none ∨
      ∃ v, findParam self.paramList "color" = some (.vec3 v))
    (hi : findParam self.paramList "intensity" = none ∨
      ∃ v, findParam self.paramList "intensity" = some (.scalar v)) :
    ∃ l2 dev2, self.commit dev = (.ok (), l2, dev2) ∧
      (∀ v, findParam self.paramList "color" = some (.vec3 v) → l2.color = v) ∧
      (findParam self.paramList "color" = none → l2.color = ⟨f1, f1, f1⟩) ∧
      (∀ v, findParam self.paramList "intensity" = some (.scalar v) → l2.intensity = v) ∧
      (findParam self.paramList "intensity" = none → l2.intensity = f1) ∧
      dev2 = ispc.AmbientLight_set self.getIE l2.color l2.intensity dev := by
  have hc2 : ∃ c, getParam3f self.paramList "color" ⟨f1, f1, f1⟩ = .ok c ∧
      (∀ v, findParam self.paramList "color" = some (.vec3 v) → c = v) ∧
      (findParam self.paramList "color" = none → c = ⟨f1, f1, f1⟩) := by
    rcases hc with h | ⟨v, h⟩
    · exact ⟨⟨f1, f1, f1⟩, by simp [getParam3f, h], by simp [h], fun _ => rfl⟩
    · refine ⟨v, by simp [getParam3f, h], ?_, by simp [h]⟩
      intro w hw
      rw [h] at hw
      injection hw with hw
      injection hw
  have hi2 : ∃ i, getParam1f self.paramList "intensity" f1 = .ok i ∧
      (∀ v, findParam self.paramList "intensity" = some (.scalar v) → i = v) ∧
      (findParam self.paramList "intensity" = none → i = f1) := by
    rcases hi with h | ⟨v, h⟩
    · exact ⟨f1, by simp [getParam1f, h], by simp [h], fun _ => rfl⟩
    · refine ⟨v, by simp [getParam1f, h], ?_, by simp [h]⟩
      intro w hw
      rw [h] at hw
      injection hw with hw
      injection hw
  obtain ⟨c, hgc, hc3, hc4⟩ := hc2
  obtain ⟨i, hgi, hi3, hi4⟩ := hi2
  exact ⟨_, _, AmbientLight.commit_ok self dev c i hgc hgi, hc3, hc4, hi3, hi4, rfl⟩

/-- C2: for every prior state and every dictionary whose `color` and
`intensity` entries are each absent or well-typed, `commit()` succeeds and sets
each field from its own entry alone: `color` is the supplied 3-vector when
present and (1,1,1) otherwise, `intensity` is the supplied scalar when present
and 1.0 otherwise, and these are the values pushed to the device-equivalent.
In particular, from every state, committing `color = (0,1,0)`,
`intensity = 2.0` yields (0,1,0) and 2.0, and a following commit with an empty
dictionary yields (1,1,1) and 1.0. -/
theorem commit_resolves_each_field :
    (∀ (self : AmbientLight) (dev : ispc.Device),
      (findParam self.paramList "color" = none ∨
        ∃ v, findParam self.paramList "color" = some (.vec3 v)) →
      (findParam self.paramList "intensity" = none ∨
        ∃ v, findParam self.paramList "intensity" = some (.scalar v)) →
      ∃ l2 dev2, self.commit dev = (.ok (), l2, dev2) ∧
        (∀ v, findParam self.paramList "color" = some (.vec3 v) → l2.color = v) ∧
        (findParam self.paramList "color" = none → l2.color = ⟨f1, f1, f1⟩) ∧
        (∀ v, findParam self.paramList "intensity" = some (.scalar v) → l2.intensity = v) ∧
        (findParam self.paramList "intensity" = none → l2.intensity = f1) ∧
        dev2 = ispc.AmbientLight_set self.getIE l2.color l2.intensity dev) ∧
    (∀ (self : AmbientLight) (dev : ispc.Device),
      ∃ l2 dev2 l3 dev3,
        (self.setParams greenParams).commit dev = (.ok (), l2, dev2) ∧
        l2.color = ⟨f0, f1, f0⟩ ∧ l2.intensity = f2 ∧
        dev2 = ispc.AmbientLight_set self.getIE ⟨f0, f1, f0⟩ f2 dev ∧
        (l2.setParams []).commit dev2 = (.ok (), l3, dev3) ∧
        l3.color = ⟨f1, f1, f1⟩ ∧ l3.intensity = f1 ∧
        dev3 = ispc.AmbientLight_set self.getIE ⟨f1, f1, f1⟩ f1 dev2) := by
  refine ⟨commit_well_typed, ?_⟩
  intro self dev
  have h1 := AmbientLight.commit_ok (self.setParams greenParams) dev ⟨f0, f1, f0⟩ f2 rfl rfl
  have h2 := AmbientLight.commit_ok
    (AmbientLight.setParams
      { self.setParams greenParams with color := ⟨f0, f1, f0⟩, intensity := f2 } [])
    (ispc.AmbientLight_set self.getIE ⟨f0, f1, f0⟩ f2 dev) ⟨f1, f1, f1⟩ f1 rfl rfl
  exact ⟨_, _, _, _, h1, rfl, rfl, rfl, h2, rfl, rfl, rfl⟩

/-- Witness for C2: `lightA` carrying the scenario dictionary has both entries
well-typed, and the general part of the theorem gives the committed fields. -/
theorem commit_resolves_each_field_witness :
    findParam (lightA.setParams greenParams).paramList "color" = some (.vec3 ⟨f0, f1, f0⟩) ∧
    findParam (lightA.setParams greenParams).paramList "intensity" = some (.scalar f2) ∧
    ∃ l2 dev2, (lightA.setParams greenParams).commit deviceA = (.ok (), l2, dev2) ∧
      l2.color = ⟨f0, f1, f0⟩ ∧ l2.intensity = f2 :=
  match commit_resolves_each_field.1 (lightA.setParams greenParams) deviceA
      (Or.inr ⟨⟨f0, f1, f0⟩, by decide⟩) (Or.inr ⟨f2, by decide⟩) with
  | ⟨l2, dev2, h, hc, _, hi, _, _⟩ =>
    ⟨by decide, by decide, l2, dev2, h, hc _ (by decide), hi _ (by decide)⟩

theorem commit_again (self l2 : AmbientLight) (dev dev2 : ispc.Device) (r : Except Error Unit)
    (h : self.commit dev = (r, l2, dev2)) :
    (l2.commit dev2).1 = r ∧ (l2.commit dev2).2.1 = l2 ∧ (l2.commit dev2).2.2.heap = dev2.heap := by
  cases hc : getParam3f self.paramList "color" ⟨f1, f1, f1⟩ with
  | error e =>
    simp only [AmbientLight.commit_color_error self dev e hc, Prod.mk.injEq] at h
    obtain ⟨rfl, rfl, rfl⟩ := h
    have h2 := AmbientLight.commit_color_error self dev e hc
    exact ⟨congrArg (fun t => t.1) h2, congrArg (fun t => t.2.1) h2,
      congrArg (fun t => t.2.2.heap) h2⟩
  | ok c =>
    cases hi : getParam1f self.paramList "intensity" f1 with
    | error e =>
      simp only [AmbientLight.commit_intensity_error self dev c e hc hi, Prod.mk.injEq] at h
      obtain ⟨rfl, rfl, rfl⟩ := h
      have h2 := AmbientLight.commit_intensity_error { self with color := c } dev c e hc hi
      exact ⟨congrArg (fun t => t.1) h2, congrArg (fun t => t.2.1) h2,
        congrArg (fun t => t.2.2.heap) h2⟩
    | ok i =>
      simp only [AmbientLight.commit_ok self dev c i hc hi, Prod.mk.injEq] at h
      obtain ⟨rfl, rfl, rfl⟩ := h
      have h2 := AmbientLight.commit_ok { self with color := c, intensity := i }
        (ispc.AmbientLight_set self.getIE c i dev) c i hc hi
      exact ⟨congrArg (fun t => t.1) h2, congrArg (fun t => t.2.1) h2,
        (congrArg (fun t => t.2.2.heap) h2).trans (ispc.store_store _ _ _ _)⟩

/-- C3: `commit()` is idempotent.  For every state and every dictionary held by
the object, a second `commit()` right after the first (dictionary unchanged)
has the same outcome, leaves the same host object (so the same `color` and
`intensity`) and the same device-equivalent contents as the first. -/
theorem commit_idempotent (self : AmbientLight) (dev : ispc.Device) :
    (self.commit dev).2.1.paramList = self.paramList ∧
    ((self.commit dev).2.1.commit (self.commit dev).2.2).1 = (self.commit dev).1 ∧
    ((self.commit dev).2.1.commit (self.commit dev).2.2).2.1 = (self.commit dev).2.1 ∧
    ((self.commit dev).2.1.commit (self.commit dev).2.2).2.2.heap = (self.commit dev).2.2.heap :=
  ⟨AmbientLight.commit_paramList self dev, commit_again self _ dev _ _ rfl⟩

theorem getParam3f_malformed (params : ParamList) (name : String) (d : vec3f) (v : ParamValue)
    (h : findParam params name = some v) (hv : v.isVec3 = false) :
    getParam3f params name d = .error .InvalidParameter := by
  unfold getParam3f
  rw [h]
  cases v with
  | vec3 c => simp [ParamValue.isVec3] at hv
  | scalar i => rfl
  | str t => rfl

theorem getParam1f_malformed (params : ParamList) (name : String) (d : float) (v : ParamValue)
    (h : findParam params name = some v) (hv : v.isScalar = false) :
    getParam1f params name d = .error .InvalidParameter := by
  unfold getParam1f
  rw [h]
  cases v with
  | scalar i => simp [ParamValue.isScalar] at hv
  | vec3 c => rfl
  | str t => rfl

theorem getParam3f_present (params : ParamList) (name : String) (d c : vec3f)
    (h : findParam params name = some (.vec3 c)) : getParam3f params name d = .ok c := by
  unfold getParam3f
  rw [h]

theorem getParam1f_present (params : ParamList) (name : String) (d i : float)
    (h : findParam params name = some (.scalar i)) : getParam1f params name d = .ok i := by
  unfold getParam1f
  rw [h]

/-- C4 (as stated, refuted): on `lightA` holding (1,1,1), with a dictionary whose
`color` is well-typed and whose `intensity` is malformed, `commit()` fails
with `InvalidParameter` but the host field `color` has been overwritten: it is
(0,1,0), no longer its value from before the call, and no longer the value the
device-equivalent holds. -/
theorem commit_not_atomic :
    findParam (lightA.setParams badIntensityParams).paramList "color"
      = some (.vec3 ⟨f0, f1, f0⟩) ∧
    findParam (lightA.setParams badIntensityParams).paramList "intensity"
      = some (.vec3 ⟨f1, f1, f1⟩) ∧
    ((lightA.setParams badIntensityParams).commit deviceA).1 = .error .InvalidParameter ∧
    (lightA.setParams badIntensityParams).color = ⟨f1, f1, f1⟩ ∧
    ((lightA.setParams badIntensityParams).commit deviceA).2.1.color = ⟨f0, f1, f0⟩ ∧
    ((lightA.setParams badIntensityParams).commit deviceA).2.1.color
      ≠ (lightA.setParams badIntensityParams).color ∧
    ispc.find ((lightA.setParams badIntensityParams).commit deviceA).2.2.heap lightA.getIE
      = some ⟨100, ⟨f1, f1, f1⟩, f1⟩ := by
  decide

/-- C4 (amended): for every state and every dictionary in which one recognised
parameter is well-typed and the other is malformed, `commit()` fails with
`InvalidParameter` and leaves the host field `intensity` and the backend (the
device-equivalent and the calls it received) as before the call.  When `color`
is the malformed one the whole host object is as before the call; when `color`
is well-typed and `intensity` is malformed, the host field `color` holds the
supplied 3-vector. -/
theorem commit_type_error (self : AmbientLight) (dev : ispc.Device)
    (h : (∃ v i, findParam self.paramList "color" = some v ∧ v.isVec3 = false ∧
            findParam self.paramList "intensity" = some (.scalar i)) ∨
         (∃ c v, findParam self.paramList "color" = some (.vec3 c) ∧
            findParam self.paramList "intensity" = some v ∧ v.isScalar = false)) :
    (self.commit dev).1 = .error .InvalidParameter ∧
    (self.commit dev).2.1.intensity = self.intensity ∧
    (self.commit dev).2.2 = dev ∧
    (∀ v, findParam self.paramList "color" = some v → v.isVec3 = false →
      (self.commit dev).2.1 = self) ∧
    (∀ c, findParam self.paramList "color" = some (.vec3 c) →
      (self.commit dev).2.1 = { self with color := c }) := by
  rcases h with ⟨v, i, hc, hv, _⟩ | ⟨c, v, hc, hi, hv⟩
  · rw [AmbientLight.commit_color_error self dev _ (getParam3f_malformed _ _ _ v hc hv)]
    refine ⟨rfl, rfl, rfl, fun _ _ _ => rfl, ?_⟩
    intro c hc2
    rw [hc] at hc2
    injection hc2 with hc2
    subst hc2
    simp [ParamValue.isVec3] at hv
  · rw [AmbientLight.commit_intensity_error self dev c _ (getParam3f_present _ _ _ c hc)
      (getParam1f_malformed _ _ _ v hi hv)]
    refine ⟨rfl, rfl, rfl, ?_, ?_⟩
    · intro w hw hw2
      rw [hc] at hw
      injection hw with hw
      subst hw
      simp [ParamValue.isVec3] at hw2
    · intro c2 hc2
      rw [hc] at hc2
      injection hc2 with hc2
      injection hc2 with hc2
      subst hc2
      rfl

/-- Witness for C4 (amended): `badIntensityParams` has a well-typed `color` and
a malformed `intensity`. -/
theorem commit_type_error_witness :
    (findParam (lightA.setParams badIntensityParams).paramList "color"
        = some (.vec3 ⟨f0, f1, f0⟩) ∧
      findParam (lightA.setParams badIntensityParams).paramList "intensity"
        = some (.vec3 ⟨f1, f1, f1⟩) ∧
      (ParamValue.vec3 ⟨f1, f1, f1⟩).isScalar = false) ∧
    ((lightA.setParams badIntensityParams).commit deviceA).1 = .error .InvalidParameter ∧
    ((lightA.setParams badIntensityParams).commit deviceA).2.1.intensity = f1 ∧
    ((lightA.setParams badIntensityParams).commit deviceA).2.2 = deviceA :=
  have h := commit_type_error (lightA.setParams badIntensityParams) deviceA
    (Or.inr ⟨⟨f0, f1, f0⟩, .vec3 ⟨f1, f1, f1⟩, by decide, by decide, by decide⟩)
  ⟨⟨by decide, by decide, by decide⟩, h.1, h.2.1, h.2.2.1⟩

theorem commit_setParams (self : AmbientLight) (dev : ispc.Device) (p q : ParamList)
    (hc : findParam p "color" = findParam q "color")
    (hi : findParam p "intensity" = findParam q "intensity") :
    (self.setParams q).commit dev =
      (((self.setParams p).commit dev).1, ((self.setParams p).commit dev).2.1.setParams q,
        ((self.setParams p).commit dev).2.2) := by
  have hc2 : getParam3f (self.setParams q).paramList "color" ⟨f1, f1, f1⟩
      = getParam3f (self.setParams p).paramList "color" ⟨f1, f1, f1⟩ := by
    simp only [AmbientLight.setParams, getParam3f, hc]
  have hi2 : getParam1f (self.setParams q).paramList "intensity" f1
      = getParam1f (self.setParams p).paramList "intensity" f1 := by
    simp only [AmbientLight.setParams, getParam1f, hi]
  cases hcp : getParam3f (self.setParams p).paramList "color" ⟨f1, f1, f1⟩ with
  | error e =>
    rw [AmbientLight.commit_color_error _ dev e hcp,
      AmbientLight.commit_color_error _ dev e (hc2.trans hcp)]
    rfl
  | ok c =>
    cases hip : getParam1f (self.setParams p).paramList "intensity" f1 with
    | error e =>
      rw [AmbientLight.commit_intensity_error _ dev c e hcp hip,
        AmbientLight.commit_intensity_error _ dev c e (hc2.trans hcp) (hi2.trans hip)]
      rfl
    | ok i =>
      rw [AmbientLight.commit_ok _ dev c i hcp hip,
        AmbientLight.commit_ok _ dev c i (hc2.trans hcp) (hi2.trans hip)]
      rfl

/-- C5 (as stated, refuted): `badColorParams` and `badColorExtraParams` agree on
the keys `color` and `intensity` and differ only in the key `exposure`, yet
`commit()` succeeds on neither: it fails with `InvalidParameter` on both,
because the entry they share under `color` is a scalar. -/
theorem commit_unknown_keys_may_fail :
    findParam badColorParams "color" = findParam badColorExtraParams "color" ∧
    findParam badColorParams "intensity" = findParam badColorExtraParams "intensity" ∧
    findParam badColorParams "exposure" = none ∧
    findParam badColorExtraParams "exposure" = some (.str "auto") ∧
    ((lightA.setParams badColorParams).commit deviceA).1 = .error .InvalidParameter ∧
    ((lightA.setParams badColorExtraParams).commit deviceA).1 = .error .InvalidParameter := by
  decide

theorem commit_malformed (self : AmbientLight) (dev : ispc.Device)
    (h : (∃ v, findParam self.paramList "color" = some v ∧ v.isVec3 = false) ∨
         (∃ v, findParam self.paramList "intensity" = some v ∧ v.isScalar = false)) :
    (self.commit dev).1 = .error .InvalidParameter := by
  rcases h with ⟨v, hc, hv⟩ | ⟨v, hi, hv⟩
  · rw [AmbientLight.commit_color_error self dev _ (getParam3f_malformed _ _ _ v hc hv)]
  · cases hc : getParam3f self.paramList "color" ⟨f1, f1, f1⟩ with
    | error e =>
      rw [AmbientLight.commit_color_error self dev e hc]
      have he : e = .InvalidParameter := by
        unfold getParam3f at hc
        split at hc
        · cases hc
        · cases hc
        · injection hc with hc
          exact hc.symm
      rw [he]
    | ok c =>
      rw [AmbientLight.commit_intensity_error self dev c _ hc
        (getParam1f_malformed _ _ _ v hi hv)]

/-- C5 (amended): unknown keys are ignored.  For every state and every pair of
dictionaries that agree on the keys `color` and `intensity`, `commit()` has the
same outcome on both, produces the same host fields and the same backend state
(device-equivalent contents and calls received); it succeeds on both whenever
the shared `color` and `intensity` entries are each absent or well-typed, and
fails with `InvalidParameter` on both otherwise, that is, whenever the shared
`color` entry is present and not a 3-vector or the shared `intensity` entry is
present and not a scalar. -/
theorem commit_ignores_unknown_keys (self : AmbientLight) (dev : ispc.Device) (p q : ParamList)
    (hc : findParam p "color" = findParam q "color")
    (hi : findParam p "intensity" = findParam q "intensity") :
    ((self.setParams p).commit dev).1 = ((self.setParams q).commit dev).1 ∧
    ((self.setParams p).commit dev).2.1.color = ((self.setParams q).commit dev).2.1.color ∧
    ((self.setParams p).commit dev).2.1.intensity
      = ((self.setParams q).commit dev).2.1.intensity ∧
    ((self.setParams p).commit dev).2.1.getIE = ((self.setParams q).commit dev).2.1.getIE ∧
    ((self.setParams p).commit dev).2.2 = ((self.setParams q).commit dev).2.2 ∧
    ((findParam p "color" = none ∨ ∃ v, findParam p "color" = some (.vec3 v)) →
      (findParam p "intensity" = none ∨ ∃ v, findParam p "intensity" = some (.scalar v)) →
      ((self.setParams p).commit dev).1 = .ok () ∧
      ((self.setParams q).commit dev).1 = .ok ()) ∧
    (((∃ v, findParam p "color" = some v ∧ v.isVec3 = false) ∨
        (∃ v, findParam p "intensity" = some v ∧ v.isScalar = false)) →
      ((self.setParams p).commit dev).1 = .error .InvalidParameter ∧
      ((self.setParams q).commit dev).1 = .error .InvalidParameter) ∧
    (((findParam p "color" = none ∨ ∃ v, findParam p "color" = some (.vec3 v)) ∧
        (findParam p "intensity" = none ∨ ∃ v, findParam p "intensity" = some (.scalar v))) ∨
      ((∃ v, findParam p "color" = some v ∧ v.isVec3 = false) ∨
        (∃ v, findParam p "intensity" = some v ∧ v.isScalar = false))) := by
  have h := commit_setParams self dev p q hc hi
  refine ⟨by rw [h], by rw [h]; rfl, by rw [h]; rfl, by rw [h]; rfl, by rw [h], ?_, ?_, ?_⟩
  · intro hcw hiw
    obtain ⟨l2, dev2, hok, _⟩ := commit_well_typed (self.setParams p) dev hcw hiw
    rw [h, hok]
    exact ⟨rfl, rfl⟩
  · intro hbad
    have hp := commit_malformed (self.setParams p) dev hbad
    rw [h, hp]
    exact ⟨rfl, rfl⟩
  · cases hcp : findParam p "color" with
    | none =>
      cases hip : findParam p "intensity" with
      | none => exact Or.inl ⟨Or.inl rfl, Or.inl rfl⟩
      | some w =>
        cases w with
        | scalar i => exact Or.inl ⟨Or.inl rfl, Or.inr ⟨i, rfl⟩⟩
        | vec3 c => exact Or.inr (Or.inr ⟨_, rfl, rfl⟩)
        | str t => exact Or.inr (Or.inr ⟨_, rfl, rfl⟩)
    | some v =>
      cases v with
      | scalar i => exact Or.inr (Or.inl ⟨_, rfl, rfl⟩)
      | str t => exact Or.inr (Or.inl ⟨_, rfl, rfl⟩)
      | vec3 c =>
        cases hip : findParam p "intensity" with
        | none => exact Or.inl ⟨Or.inr ⟨c, rfl⟩, Or.inl rfl⟩
        | some w =>
          cases w with
          | scalar i => exact Or.inl ⟨Or.inr ⟨c, rfl⟩, Or.inr ⟨i, rfl⟩⟩
          | vec3 c2 => exact Or.inr (Or.inr ⟨_, rfl, rfl⟩)
          | str t => exact Or.inr (Or.inr ⟨_, rfl, rfl⟩)

/-- Witness for C5 (amended): the scenario dictionary, with and without an
unrecognised key in front, commits successfully with the same result; the
dictionary with a scalar under `color`, with and without an unrecognised key,
fails with `InvalidParameter` both times. -/
theorem commit_ignores_unknown_keys_witness :
    (findParam greenParams "color" = findParam (("exposure", .str "auto") :: greenParams) "color" ∧
      findParam greenParams "intensity"
        = findParam (("exposure", .str "auto") :: greenParams) "intensity") ∧
    (((lightA.setParams greenParams).commit deviceA).1 = .ok () ∧
      ((lightA.setParams (("exposure", .str "auto") :: greenParams)).commit deviceA).1
        = .ok ()) ∧
    ((lightA.setParams greenParams).commit deviceA).2.1.color
      = ((lightA.setParams (("exposure", .str "auto") :: greenParams)).commit deviceA).2.1.color ∧
    ((lightA.setParams greenParams).commit deviceA).2.2
      = ((lightA.setParams (("exposure", .str "auto") :: greenParams)).commit deviceA).2.2 ∧
    (findParam badColorParams "color" = findParam badColorExtraParams "color" ∧
      findParam badColorParams "intensity" = findParam badColorExtraParams "intensity") ∧
    ((lightA.setParams badColorParams).commit deviceA).1 = .error .InvalidParameter ∧
    ((lightA.setParams badColorExtraParams).commit deviceA).1 = .error .InvalidParameter :=
  have h := commit_ignores_unknown_keys lightA deviceA greenParams
    (("exposure", .str "auto") :: greenParams) (by decide) (by decide)
  have k := commit_ignores_unknown_keys lightA deviceA badColorParams badColorExtraParams
    (by decide) (by decide)
  have kf := k.2.2.2.2.2.2.1 (Or.inl ⟨.scalar f2, by decide, by decide⟩)
  ⟨⟨by decide, by decide⟩,
    h.2.2.2.2.2.1 (Or.inr ⟨⟨f0, f1, f0⟩, by decide⟩) (Or.inr ⟨f2, by decide⟩),
    h.2.1, h.2.2.2.2.1, ⟨by decide, by decide⟩, kf.1, kf.2⟩

/-- C6: host and device agree after every successful commit.  In every state
reached by constructing an AmbientLight, performing any sequence of commits
with arbitrary dictionaries and then a commit that succeeds, the
device-equivalent under the light's handle holds the host fields `color` and
`intensity`, and these are the arguments of the last `AmbientLight_set` call on
that handle. -/
theorem host_device_agree_after_commit (this : Ptr) (dev dev1 : ispc.Device) (l : AmbientLight)
    (hnew : AmbientLight.new this dev = .ok (l, dev1)) (ps : List ParamList) (p : ParamList)
    (hok : (((AmbientLight.commits ps l dev1).2.1.setParams p).commit
      (AmbientLight.commits ps l dev1).2.2).1 = .ok ()) :
    ∃ l2 dev2,
      ((AmbientLight.commits ps l dev1).2.1.setParams p).commit
        (AmbientLight.commits ps l dev1).2.2 = (.ok (), l2, dev2) ∧
      l2.getIE = l.getIE ∧
      ispc.find dev2.heap l2.getIE = some ⟨this, l2.color, l2.intensity⟩ ∧
      ispc.lastSet dev2.trace l2.getIE = some (l2.color, l2.intensity) := by
  obtain ⟨hl, hheap, _, _⟩ := new_ok this dev dev1 l hnew
  obtain ⟨hie, _, _, hown⟩ := commits_invariant ps l dev1
  obtain ⟨c, i, hc, hi⟩ := commit_ok_inv _ _ hok
  have hlive : (ispc.find (AmbientLight.commits ps l dev1).2.2.heap l.getIE).map
      (fun v => v.cppEquivalent) = some this := by
    rw [hown, hheap, hl]
    simp [ispc.find, AmbientLight.getIE]
  refine ⟨_, _, AmbientLight.commit_ok _ _ c i hc hi, hie, ?_, ?_⟩
  · show ispc.find (ispc.AmbientLight_set _ c i _).heap (AmbientLight.commits ps l dev1).2.1.getIE
      = some ⟨this, c, i⟩
    have hie2 : ((AmbientLight.commits ps l dev1).2.1.setParams p).getIE = l.getIE := hie
    rw [hie2, hie]
    simp only [ispc.AmbientLight_set, ispc.find_store, if_true]
    cases hf : ispc.find (AmbientLight.commits ps l dev1).2.2.heap l.getIE with
    | none => rw [hf] at hlive; cases hlive
    | some v =>
      rw [hf] at hlive
      have hv : v.cppEquivalent = this := Option.some.inj hlive
      rw [← hv]
      rfl
  · show ispc.lastSet (ispc.AmbientLight_set _ c i _).trace
      (AmbientLight.commits ps l dev1).2.1.getIE = some (c, i)
    have hie2 : ((AmbientLight.commits ps l dev1).2.1.setParams p).getIE = l.getIE := hie
    rw [hie2, hie]
    simp [ispc.AmbientLight_set, ispc.lastSet]

/-- Witness for C6: construct `lightA`, commit a malformed dictionary (which
fails), then commit the scenario dictionary (which succeeds). -/
theorem host_device_agree_after_commit_witness :
    AmbientLight.new 100 emptyDevice = .ok (lightA, deviceA) ∧
    (((AmbientLight.commits [badIntensityParams] lightA deviceA).2.1.setParams greenParams).commit
      (AmbientLight.commits [badIntensityParams] lightA deviceA).2.2).1 = .ok () ∧
    ∃ l2 dev2,
      ((AmbientLight.commits [badIntensityParams] lightA deviceA).2.1.setParams greenParams).commit
        (AmbientLight.commits [badIntensityParams] lightA deviceA).2.2 = (.ok (), l2, dev2) ∧
      l2.getIE = lightA.getIE ∧
      ispc.find dev2.heap l2.getIE = some ⟨100, l2.color, l2.intensity⟩ ∧
      ispc.lastSet dev2.trace l2.getIE = some (l2.color, l2.intensity) :=
  ⟨by decide, by decide,
    host_device_agree_after_commit 100 emptyDevice deviceA lightA (by decide)
      [badIntensityParams] greenParams (by decide)⟩

theorem find_store_ne (objects : List (Ptr × AmbientLight)) (a b : Ptr) (l : AmbientLight)
    (hab : a ≠ b) : World.find (World.store objects a l) b = World.find objects b := by
  induction objects with
  | nil => rfl
  | cons e rest ih =>
    obtain ⟨k, v⟩ := e
    by_cases hk : k = a
    · have hkb : ¬ k = b := fun e => hab (hk.symm.trans e)
      simp only [World.store, hk, if_true, World.find]
      rw [if_neg (by rw [← hk]; exact hkb), ih, if_neg (by rw [← hk]; exact hkb)]
    · simp only [World.store, hk, if_false, World.find, ih]

/-- C7: isolation.  In a system holding two distinct AmbientLight objects, at
addresses `a` and `b`, with distinct device-equivalents, `commit()` on the
object at `a` (whatever dictionary it holds) returns, leaves the host object at
`b` unchanged and leaves the device-equivalent of `b` unchanged; every
device-equivalent other than the one paired with the object at `a` is
unchanged, and no device-equivalent is created. -/
theorem commit_isolation (w : World) (a b : Ptr) (A B : AmbientLight)
    (hab : a ≠ b)
    (hA : World.find w.objects a = some A) (hB : World.find w.objects b = some B)
    (hdev : A.getIE ≠ B.getIE) :
    ∃ r w2, World.commit a w = some (r, w2) ∧
      World.find w2.objects b = some B ∧
      ispc.find w2.device.heap B.getIE = ispc.find w.device.heap B.getIE ∧
      (∀ h, h ≠ A.getIE → ispc.find w2.device.heap h = ispc.find w.device.heap h) ∧
      ispc.creations w2.device.trace = ispc.creations w.device.trace := by
  refine ⟨(A.commit w.device).1,
    { objects := World.store w.objects a (A.commit w.device).2.1,
      device := (A.commit w.device).2.2 }, ?_, ?_, ?_, ?_, ?_⟩
  · simp only [World.commit, hA]
  · show World.find (World.store w.objects a _) b = some B
    rw [find_store_ne _ a b _ hab, hB]
  · exact commit_frame A w.device B.getIE (fun e => hdev e.symm)
  · intro h hh
    exact commit_frame A w.device h hh
  · exact (commit_creations A w.device).1

/-- Witness for C7: in `worldAB`, committing the scenario dictionary on the
object at address 100 leaves the object at address 200 and its
device-equivalent (handle 2) as they were. -/
theorem commit_isolation_witness :
    (World.find worldAB.objects 100 = some (lightA.setParams greenParams) ∧
      World.find worldAB.objects 200 = some lightB ∧
      (lightA.setParams greenParams).getIE ≠ lightB.getIE) ∧
    ∃ r w2, World.commit 100 worldAB = some (r, w2) ∧
      World.find w2.objects 200 = some lightB ∧
      ispc.find w2.device.heap lightB.getIE = ispc.find worldAB.device.heap lightB.getIE :=
  match commit_isolation worldAB 100 200 (lightA.setParams greenParams) lightB
      (by decide) (by decide) (by decide) (by decide) with
  | ⟨r, w2, h, hb, hd, _, _⟩ => ⟨⟨by decide, by decide, by decide⟩, r, w2, h, hb, hd⟩

/-- C8: the device handle is created exactly once and is stable.  A successful
construction performs exactly one device-equivalent creation (one `create` call
more in the trace, one device-equivalent more in the backend), and stores a
handle that is non-null, was not in use before and is live afterwards; any
sequence of commits with arbitrary dictionaries performs no creation and leaves
`getIE()` equal to the handle stored at construction. -/
theorem handle_created_once (this : Ptr) (dev dev1 : ispc.Device) (l : AmbientLight)
    (hnew : AmbientLight.new this dev = .ok (l, dev1)) :
    ispc.creations dev1.trace = ispc.creations dev.trace + 1 ∧
    dev1.heap.length = dev.heap.length + 1 ∧
    l.getIE ≠ 0 ∧
    ispc.find dev.heap l.getIE = none ∧
    (ispc.find dev1.heap l.getIE).isSome = true ∧
    ∀ ps : List ParamList,
      ispc.creations (AmbientLight.commits ps l dev1).2.2.trace = ispc.creations dev1.trace ∧
      (AmbientLight.commits ps l dev1).2.2.heap.length = dev1.heap.length ∧
      (AmbientLight.commits ps l dev1).2.1.getIE = l.getIE := by
  obtain ⟨hl, hheap, htrace, _⟩ := new_ok this dev dev1 l hnew
  refine ⟨?_, ?_, ?_, ?_, ?_, ?_⟩
  · rw [htrace]; rfl
  · rw [hheap]; rfl
  · rw [hl]
    exact Nat.pos_iff_ne_zero.mp (ispc.freshPtr_pos dev.heap)
  · rw [hl]
    exact ispc.find_freshPtr dev.heap
  · rw [hheap, hl]
    simp [ispc.find, AmbientLight.getIE]
  · intro ps
    obtain ⟨h1, h2, h3, _⟩ := commits_invariant ps l dev1
    exact ⟨h2, h3, h1⟩

/-- Witness for C8: the construction of `lightA` on the empty backend. -/
theorem handle_created_once_witness :
    AmbientLight.new 100 emptyDevice = .ok (lightA, deviceA) ∧
    ispc.creations deviceA.trace = ispc.creations emptyDevice.trace + 1 ∧
    lightA.getIE ≠ 0 ∧
    (AmbientLight.commits [greenParams, []] lightA deviceA).2.1.getIE = lightA.getIE :=
  have h := handle_created_once 100 emptyDevice deviceA lightA (by decide)
  ⟨by decide, h.1, h.2.2.1, (h.2.2.2.2.2 [greenParams, []]).2.2⟩

/-- C9: the Uncommitted state holds the defaults only.  Right after a
successful construction the object has no parameters and its host fields are
`color` = (1,1,1) and `intensity` = 1.0; a first `commit()` with an empty
dictionary succeeds, resolves exactly these values and leaves the host object
unchanged. -/
theorem uncommitted_holds_defaults (this : Ptr) (dev dev1 : ispc.Device) (l : AmbientLight)
    (hnew : AmbientLight.new this dev = .ok (l, dev1)) :
    l.paramList = [] ∧ l.color = ⟨f1, f1, f1⟩ ∧ l.intensity = f1 ∧
    ((l.setParams []).commit dev1).1 = .ok () ∧
    ((l.setParams []).commit dev1).2.1.color = ⟨f1, f1, f1⟩ ∧
    ((l.setParams []).commit dev1).2.1.intensity = f1 ∧
    ((l.setParams []).commit dev1).2.1 = l := by
  obtain ⟨hl, _, _, _⟩ := new_ok this dev dev1 l hnew
  subst hl
  have h := AmbientLight.commit_ok
    (AmbientLight.setParams ⟨[], ispc.freshPtr dev.heap, ⟨f1, f1, f1⟩, f1⟩ []) dev1
    ⟨f1, f1, f1⟩ f1 rfl rfl
  rw [h]
  exact ⟨rfl, rfl, rfl, rfl, rfl, rfl, rfl⟩

/-- Witness for C9: the construction of `lightA` on the empty backend. -/
theorem uncommitted_holds_defaults_witness :
    AmbientLight.new 100 emptyDevice = .ok (lightA, deviceA) ∧
    lightA.color = ⟨f1, f1, f1⟩ ∧ lightA.intensity = f1 ∧
    ((lightA.setParams []).commit deviceA).2.1 = lightA :=
  have h := uncommitted_holds_defaults 100 emptyDevice deviceA lightA (by decide)
  ⟨by decide, h.2.1, h.2.2.1, h.2.2.2.2.2.2⟩

/-- C10: the device-equivalent is initialised with the defaults at
construction.  Right after a successful construction and before any commit,
the device-equivalent under the light's handle belongs to the object and holds
`color` (1,1,1) and `intensity` 1.0, which are the host fields. -/
theorem device_initialised_at_construction (this : Ptr) (dev dev1 : ispc.Device)
    (l : AmbientLight) (hnew : AmbientLight.new this dev = .ok (l, dev1)) :
    ispc.find dev1.heap l.getIE = some ⟨this, ⟨f1, f1, f1⟩, f1⟩ ∧
    ispc.find dev1.heap l.getIE = some ⟨this, l.color, l.intensity⟩ := by
  obtain ⟨hl, hheap, _, _⟩ := new_ok this dev dev1 l hnew
  subst hl
  rw [hheap]
  simp [ispc.find, AmbientLight.getIE]

/-- Witness for C10: the construction of `lightA` on the empty backend. -/
theorem device_initialised_at_construction_witness :
    AmbientLight.new 100 emptyDevice = .ok (lightA, deviceA) ∧
    ispc.find deviceA.heap lightA.getIE = some ⟨100, ⟨f1, f1, f1⟩, f1⟩ :=
  ⟨by decide, (device_initialised_at_construction 100 emptyDevice deviceA lightA (by decide)).1⟩
